import Mathlib

/-!
Shallow embedding of the authentication and abuse-detection layer of the
`chuck-norris-api` service (files `app/middleware.py` and `app/auth.py`),
together with theorems settling the specification claims about it.

Wall-clock timestamps (`time.time()` values) are modelled as integers (a
discrete clock; every claim about this layer is window arithmetic and
threshold counting, which is insensitive to that choice). The failure map
`_auth_failures : dict[str, list[float]]` is modelled as an association
list with `defaultdict(list)` semantics: a missing key reads as the empty
list, and a write to a missing key appends it at the end, matching Python
dict insertion order. The SHA-256 digest of `hash_api_key` is an external
fixed-cost transform; it is modelled as a function parameter.
-/

namespace ChuckNorris

/-- Constant `AUTH_FAILURE_WINDOW = 300` (middleware.py line 17). -/
def AUTH_FAILURE_WINDOW : ℤ := 300

/-- Constant `AUTH_FAILURE_THRESHOLD_IP = 10` (middleware.py line 18). -/
def AUTH_FAILURE_THRESHOLD_IP : ℕ := 10

/-- Constant `AUTH_FAILURE_THRESHOLD_GLOBAL = 20` (middleware.py line 19). -/
def AUTH_FAILURE_THRESHOLD_GLOBAL : ℕ := 20

/-- The in-memory failure map `_auth_failures : dict[str, list[float]]`,
as an association list from source address to its timestamp sequence. -/
abbrev TrackerState := List (String × List ℤ)

/-- Reading `_auth_failures[ip]` under `defaultdict(list)`: the stored
sequence when the key is present, `[]` otherwise. -/
def lookupTimes (st : TrackerState) (src : String) : List ℤ :=
  match st.find? (fun p => p.1 == src) with
  | some p => p.2
  | none => []

/-- List comprehension `[t for t in times if t > cutoff]`
(middleware.py lines 74-76). -/
def pruneTimes (times : List ℤ) (cutoff : ℤ) : List ℤ :=
  times.filter (fun t => cutoff < t)

/-- Writing `_auth_failures[ip] = ts`: replace the entry when the key is
present, otherwise append it (dict insertion order). -/
def setTimes (st : TrackerState) (src : String) (ts : List ℤ) : TrackerState :=
  if st.any (fun p => p.1 == src) then
    st.map (fun p => if p.1 == src then (src, ts) else p)
  else
    st ++ [(src, ts)]

/-- Expression `sum(len(times) for ip, times in _auth_failures.items() if
any(t > cutoff for t in times))` (middleware.py lines 92-96): the full stored
length of every source holding at least one in-window timestamp. -/
def globalFailureTotal (st : TrackerState) (cutoff : ℤ) : ℕ :=
  (st.map (fun p => if p.2.any (fun t => cutoff < t) then p.2.length else 0)).sum

/-- Result of one `_track_auth_failure` call: the updated map, the per-call
brute-force and spray alert flags (each call emits at most one critical log
of each kind), and the count fields those critical logs carry. -/
structure RecordResult where
  state : TrackerState
  bruteForce : Bool
  failureCount : ℕ
  spray : Bool
  totalFailures : ℕ
  deriving Repr, DecidableEq

/-- Static method `RequestLoggingMiddleware._track_auth_failure(client_ip)`
(middleware.py lines 67-105), with the wall clock `now` passed explicitly. -/
def track_auth_failure (st : TrackerState) (client_ip : String) (now : ℤ) :
    RecordResult :=
  let cutoff := now - AUTH_FAILURE_WINDOW
  let pruned := pruneTimes (lookupTimes st client_ip) cutoff
  let newTimes := pruned ++ [now]
  let st1 := setTimes st client_ip newTimes
  let count := newTimes.length
  let total := globalFailureTotal st1 cutoff
  { state := st1
    bruteForce := decide (AUTH_FAILURE_THRESHOLD_IP ≤ count)
    failureCount := count
    spray := decide (AUTH_FAILURE_THRESHOLD_GLOBAL ≤ total)
    totalFailures := total }

/-- The aggregate the spec describes for spray detection: sum of sequence
lengths after pruning every source's sequence against the cutoff. -/
def prunedAggregate (st : TrackerState) (cutoff : ℤ) : ℕ :=
  (st.map (fun p => (pruneTimes p.2 cutoff).length)).sum

/-- Folding `_track_auth_failure` over a list of call timestamps for a fixed
source, collecting the per-call brute-force flags in order. -/
def recordSeq (st : TrackerState) (src : String) : List ℤ → TrackerState × List Bool
  | [] => (st, [])
  | t :: rest =>
    let r := track_auth_failure st src t
    let rec' := recordSeq r.state src rest
    (rec'.1, r.bruteForce :: rec'.2)

/-- In-window call chain: at each call, every earlier call timestamp is still
inside the detection window (strictly newer than that call's cutoff). -/
def inWindowChain (ts : List ℤ) : Prop :=
  List.Pairwise (fun a b => b - AUTH_FAILURE_WINDOW < a) ts

instance (ts : List ℤ) : Decidable (inWindowChain ts) :=
  inferInstanceAs (Decidable (List.Pairwise (fun a b => b - AUTH_FAILURE_WINDOW < a) ts))

/-! ## The request instrumentation pipeline (`RequestLoggingMiddleware.dispatch`) -/

/-- A request as the middleware consults it: the two headers it reads, the
transport peer (`request.client.host`, absent when `request.client` is
`None`), and the fields copied into the log record. -/
structure Request where
  method : String
  path : String
  x_forwarded_for : Option String
  client_host : Option String
  user_agent : Option String
  deriving Repr, DecidableEq

/-- Expression `request.headers.get("X-Forwarded-For", request.client.host if
request.client else "unknown")` (middleware.py lines 30-32): the whole
forwarded-for header value when present, else the peer address. -/
def clientIpOf (req : Request) : String :=
  match req.x_forwarded_for with
  | some v => v
  | none => req.client_host.getD "unknown"

/-- Severity of a logger call. -/
inductive LogLevel where
  | info | warning | error | critical
  deriving Repr, DecidableEq

/-- One structured per-request log record: the `log_data` dict of
middleware.py lines 39-48 plus the logger call's level and message. -/
structure LogRecord where
  level : LogLevel
  message : String
  request_id : String
  method : String
  path : String
  status_code : ℕ
  client_ip : String
  user_agent : String
  response_time_ms : ℤ
  event_type : String
  deriving Repr, DecidableEq

/-- Outcome of `await call_next(request)`: a downstream response with a
status code, or an exception propagating out of the wrapped handler. -/
inductive HandlerOutcome where
  | ok (status : ℕ)
  | exn (e : String)
  deriving Repr, DecidableEq

/-- The outbound response as the middleware touches it: the downstream
status code and the `X-Request-ID` header it writes. -/
structure Response where
  status_code : ℕ
  x_request_id : Option String
  deriving Repr, DecidableEq

/-- Everything a completed `dispatch` call produces: the returned response,
the one structured log record, the tracker state after the call, and the
tracker call's result when `_track_auth_failure` was invoked. -/
structure DispatchOk where
  response : Response
  log : LogRecord
  trackerState : TrackerState
  trackResult : Option RecordResult
  deriving Repr, DecidableEq

/-- Method `RequestLoggingMiddleware.dispatch` (middleware.py lines 25-65),
with the generated `request_id`, the wall clock `now` and the measured
`duration_ms` passed explicitly. There is no try/except around
`call_next`, so a handler exception propagates before any logging and
before the `X-Request-ID` header is written. -/
def dispatch (st : TrackerState) (req : Request) (request_id : String)
    (now : ℤ) (duration_ms : ℤ) : HandlerOutcome → Except String DispatchOk
  | .exn e => .error e
  | .ok status =>
    let client_ip := clientIpOf req
    let base : LogRecord :=
      { level := .info
        message := "Request completed"
        request_id := request_id
        method := req.method
        path := req.path
        status_code := status
        client_ip := client_ip
        user_agent := req.user_agent.getD "unknown"
        response_time_ms := duration_ms
        event_type := "http_request" }
    let resp : Response := { status_code := status, x_request_id := some request_id }
    if status = 401 ∨ status = 403 then
      let r := track_auth_failure st client_ip now
      .ok { response := resp
            log := { base with level := .warning
                               message := "Authentication failure"
                               event_type := "auth_failure" }
            trackerState := r.state
            trackResult := some r }
    else if 500 ≤ status then
      .ok { response := resp
            log := { base with level := .error
                               message := "Server error"
                               event_type := "server_error" }
            trackerState := st
            trackResult := none }
    else if 400 ≤ status then
      .ok { response := resp
            log := { base with level := .warning, message := "Client error" }
            trackerState := st
            trackResult := none }
    else
      .ok { response := resp
            log := base
            trackerState := st
            trackResult := none }

/-- The structured per-request log records a `dispatch` call emits. -/
def emittedLogs : Except String DispatchOk → List LogRecord
  | .ok r => [r.log]
  | .error _ => []

/-- The response a `dispatch` call returns, when it returns one. -/
def responseOf : Except String DispatchOk → Option Response
  | .ok r => some r.response
  | .error _ => none

/-- The `_track_auth_failure` result of a `dispatch` call, when the tracker
was invoked. -/
def trackResultOf : Except String DispatchOk → Option RecordResult
  | .ok r => r.trackResult
  | .error _ => none

/-- The tracker state after a `dispatch` call, when it completed. -/
def trackerStateOf : Except String DispatchOk → Option TrackerState
  | .ok r => some r.trackerState
  | .error _ => none

/-- The first value of a comma-separated forwarded-for header, the way the
spec reads the header ("first value wins"). -/
def forwardedForFirstValue (v : String) : String :=
  String.mk (v.toList.takeWhile (fun c => c ≠ ','))

/-- Request fixture with no forwarded-for header and a transport peer. -/
def reqPeerOnly : Request where
  method := "GET"
  path := "/jokes/random"
  x_forwarded_for := none
  client_host := some "10.0.0.1"
  user_agent := some "curl"

/-- Request fixture whose forwarded-for header carries a comma-separated
list. -/
def reqForwardedList : Request where
  method := "GET"
  path := "/jokes/random"
  x_forwarded_for := some "1.2.3.4, 5.6.7.8"
  client_host := some "10.0.0.1"
  user_agent := some "curl"

/-- Request fixture with a single-address forwarded-for header and no
transport peer. -/
def reqForwardedPlain : Request where
  method := "GET"
  path := "/jokes/random"
  x_forwarded_for := some "7.7.7.7"
  client_host := none
  user_agent := none

/-- Request fixture with neither forwarded-for header nor transport peer. -/
def reqBare : Request where
  method := "GET"
  path := "/jokes/random"
  x_forwarded_for := none
  client_host := none
  user_agent := none

/-! ## Credential verification (`app/auth.py`) -/

/-- A stored credential row, restricted to the columns `verify_api_key`
consults: the fingerprint (`key_hash`) and the active flag. -/
structure APIKey where
  key_hash : String
  is_active : Bool
  deriving Repr, DecidableEq

/-- An `HTTPException` as raised by auth.py: status code and detail. -/
structure HTTPError where
  status_code : ℕ
  detail : String
  deriving Repr, DecidableEq

/-- Function `verify_api_key` (auth.py lines 28-56). The header value is
`none` when absent; Python's `if not api_key` is also true for the empty
string. The store query `db.query(APIKey).filter(APIKey.key_hash ==
key_hash, APIKey.is_active.is_(True)).first()` is the first row matching
both conditions. The digest `hash_api_key` is passed as a function. -/
def verify_api_key (hash_api_key : String → String) (api_key : Option String)
    (db : List APIKey) : Except HTTPError APIKey :=
  if api_key.getD "" = "" then
    .error { status_code := 401, detail := "Missing API key. Provide X-API-Key header." }
  else
    let key_hash := hash_api_key (api_key.getD "")
    match db.find? (fun k => k.key_hash == key_hash && k.is_active) with
    | some k => .ok k
    | none =>
      .error { status_code := 403, detail := "Invalid or deactivated API key." }

/-- Function `verify_admin_secret` (auth.py lines 59-87). `ADMIN_SECRET` is
`os.getenv("ADMIN_SECRET", "")`, so an unset variable reads as `""`; it is
passed explicitly. `secrets.compare_digest` is a constant-time string
equality, so its value is plain equality. -/
def verify_admin_secret (admin_secret : String) (api_key : Option String) :
    Except HTTPError String :=
  if admin_secret = "" then
    .error { status_code := 503, detail := "Admin secret not configured on server." }
  else if api_key.getD "" = "" then
    .error { status_code := 401, detail := "Missing admin secret. Provide X-API-Key header." }
  else if api_key.getD "" = admin_secret then
    .ok (api_key.getD "")
  else
    .error { status_code := 403, detail := "Invalid admin secret." }

theorem find?_key_cons_pos (key : String) (q : String × List ℤ)
    (l : List (String × List ℤ)) (h : (q.1 == key) = true) :
    List.find? (fun p => p.1 == key) (q :: l) = some q := by
  rw [List.find?_cons, h]

theorem find?_key_cons_neg (key : String) (q : String × List ℤ)
    (l : List (String × List ℤ)) (h : (q.1 == key) = false) :
    List.find? (fun p => p.1 == key) (q :: l) = List.find? (fun p => p.1 == key) l := by
  rw [List.find?_cons, h]

theorem find?_setTimes_map (st : TrackerState) (src : String) (ts : List ℤ) :
    (st.map (fun p => if p.1 == src then (src, ts) else p)).find? (fun p => p.1 == src) =
      (st.find? (fun p => p.1 == src)).map (fun _ => (src, ts)) := by
  induction st with
  | nil => rfl
  | cons p rest ih =>
    by_cases hp : (p.1 == src) = true
    · rw [List.map_cons, if_pos hp,
        find?_key_cons_pos src (src, ts) _ (by simp),
        find?_key_cons_pos src p rest hp]
      rfl
    · have hp0 : (p.1 == src) = false := by simpa using hp
      rw [List.map_cons, if_neg hp,
        find?_key_cons_neg src p _ hp0,
        find?_key_cons_neg src p rest hp0, ih]

theorem find?_map_setTimes_ne (st : TrackerState) (src src' : String) (ts : List ℤ)
    (h : src' ≠ src) :
    (st.map (fun p => if p.1 == src then (src, ts) else p)).find? (fun p => p.1 == src') =
      st.find? (fun p => p.1 == src') := by
  have hss : (src == src') = false := by
    simp only [beq_eq_false_iff_ne, ne_eq]
    exact fun hc => h hc.symm
  induction st with
  | nil => rfl
  | cons p rest ih =>
    by_cases hp : (p.1 == src) = true
    · have hps : p.1 = src := eq_of_beq hp
      have hp' : (p.1 == src') = false := by rw [hps]; exact hss
      rw [List.map_cons, if_pos hp,
        find?_key_cons_neg src' (src, ts) _ hss,
        find?_key_cons_neg src' p rest hp', ih]
    · have hp0 : (p.1 == src) = false := by simpa using hp
      by_cases hq : (p.1 == src') = true
      · rw [List.map_cons, if_neg hp,
          find?_key_cons_pos src' p _ hq,
          find?_key_cons_pos src' p rest hq]
      · have hq0 : (p.1 == src') = false := by simpa using hq
        rw [List.map_cons, if_neg hp,
          find?_key_cons_neg src' p _ hq0,
          find?_key_cons_neg src' p rest hq0, ih]

theorem lookupTimes_setTimes_self (st : TrackerState) (src : String) (ts : List ℤ) :
    lookupTimes (setTimes st src ts) src = ts := by
  unfold setTimes lookupTimes
  by_cases hany : st.any (fun p => p.1 == src) = true
  · rw [if_pos hany, find?_setTimes_map]
    obtain ⟨p, hp, hpred⟩ := List.any_eq_true.mp hany
    have hsome : (st.find? (fun p => p.1 == src)).isSome = true :=
      List.find?_isSome.mpr ⟨p, hp, hpred⟩
    obtain ⟨q, hq⟩ := Option.isSome_iff_exists.mp hsome
    rw [hq]
    rfl
  · rw [if_neg hany, List.find?_append]
    have hnone : st.find? (fun p => p.1 == src) = none := by
      rw [List.find?_eq_none]
      intro p hp hc
      exact hany (List.any_eq_true.mpr ⟨p, hp, hc⟩)
    rw [hnone]
    simp [List.find?]

theorem lookupTimes_setTimes_ne (st : TrackerState) (src src' : String) (ts : List ℤ)
    (h : src' ≠ src) :
    lookupTimes (setTimes st src ts) src' = lookupTimes st src' := by
  unfold setTimes lookupTimes
  by_cases hany : st.any (fun p => p.1 == src) = true
  · rw [if_pos hany, find?_map_setTimes_ne st src src' ts h]
  · rw [if_neg hany, List.find?_append]
    have hss : (src == src') = false := by
      simp only [beq_eq_false_iff_ne, ne_eq]
      exact fun hc => h hc.symm
    have hsingle : List.find? (fun p => p.1 == src') [(src, ts)] = none := by
      simp [List.find?, hss]
    rw [hsingle, Option.or_none]

theorem keys_setTimes (st : TrackerState) (src : String) (ts : List ℤ) (s : String)
    (hs : s ∈ st.map Prod.fst) :
    s ∈ (setTimes st src ts).map Prod.fst := by
  unfold setTimes
  by_cases hany : st.any (fun p => p.1 == src) = true
  · rw [if_pos hany]
    obtain ⟨p, hp, rfl⟩ := List.mem_map.mp hs
    apply List.mem_map.mpr
    by_cases hpk : (p.1 == src) = true
    · exact ⟨(src, ts), List.mem_map.mpr ⟨p, hp, by rw [if_pos hpk]⟩, (eq_of_beq hpk).symm⟩
    · exact ⟨p, List.mem_map.mpr ⟨p, hp, by rw [if_neg hpk]⟩, rfl⟩
  · rw [if_neg hany, List.map_append]
    exact List.mem_append.mpr (Or.inl hs)

theorem prunedAggregate_le_globalFailureTotal (st : TrackerState) (cutoff : ℤ) :
    prunedAggregate st cutoff ≤ globalFailureTotal st cutoff := by
  unfold prunedAggregate globalFailureTotal
  apply List.sum_le_sum
  intro p _
  by_cases h : p.2.any (fun t => cutoff < t) = true
  · rw [if_pos h]
    exact List.length_filter_le _ _
  · rw [if_neg h]
    have hnil : pruneTimes p.2 cutoff = [] := by
      unfold pruneTimes
      rw [List.filter_eq_nil_iff]
      intro a ha hc
      exact h (List.any_eq_true.mpr ⟨a, ha, hc⟩)
    rw [hnil]
    simp

/-- C1 counterexample: the spray aggregate is not the pruned aggregate. A
foreign source "b" holding nineteen stale timestamps (at 0, far older than
the window) and one in-window timestamp (at 340) contributes its full
length 20 to the aggregate of a call recording "a" at time 350, so the
spray alert fires even though the aggregate of the pruned sequences is
only 2 — the claimed iff fails, and stale timestamps did contribute. -/
theorem claim_C1_spray_counterexample :
    (track_auth_failure [("b", List.replicate 19 0 ++ [340])] "a" 350).spray = true ∧
    prunedAggregate (track_auth_failure [("b", List.replicate 19 0 ++ [340])] "a" 350).state
      (350 - AUTH_FAILURE_WINDOW) = 2 ∧
    ¬(AUTH_FAILURE_THRESHOLD_GLOBAL ≤ (2 : ℕ)) := by decide

/-- C1 amended: `track_auth_failure` computes the aggregate as the sum of
the full stored sequence lengths of the sources holding at least one
timestamp newer than `now - W` (so stale timestamps of a source that also
holds an in-window one do contribute), and emits the spray alert iff that
aggregate reaches `T_global`. The aggregate dominates the spec's pruned
aggregate, so whenever the pruned aggregate reaches `T_global` the alert
still fires (the code over-alerts, never under-alerts). -/
theorem claim_C1_spray_amended (st : TrackerState) (src : String) (now : ℤ) :
    (track_auth_failure st src now).totalFailures =
      globalFailureTotal (track_auth_failure st src now).state (now - AUTH_FAILURE_WINDOW) ∧
    ((track_auth_failure st src now).spray = true ↔
      AUTH_FAILURE_THRESHOLD_GLOBAL ≤
        globalFailureTotal (track_auth_failure st src now).state (now - AUTH_FAILURE_WINDOW)) ∧
    prunedAggregate (track_auth_failure st src now).state (now - AUTH_FAILURE_WINDOW) ≤
      (track_auth_failure st src now).totalFailures ∧
    (AUTH_FAILURE_THRESHOLD_GLOBAL ≤
        prunedAggregate (track_auth_failure st src now).state (now - AUTH_FAILURE_WINDOW) →
      (track_auth_failure st src now).spray = true) := by
  have hspray : (track_auth_failure st src now).spray =
      decide (AUTH_FAILURE_THRESHOLD_GLOBAL ≤ (track_auth_failure st src now).totalFailures) :=
    rfl
  have htot : (track_auth_failure st src now).totalFailures =
      globalFailureTotal (track_auth_failure st src now).state (now - AUTH_FAILURE_WINDOW) :=
    rfl
  have hle : prunedAggregate (track_auth_failure st src now).state (now - AUTH_FAILURE_WINDOW) ≤
      (track_auth_failure st src now).totalFailures := by
    rw [htot]
    exact prunedAggregate_le_globalFailureTotal _ _
  refine ⟨htot, ?_, hle, ?_⟩
  · rw [hspray, decide_eq_true_eq, htot]
  · intro h
    rw [hspray, decide_eq_true_eq]
    exact le_trans h hle

/-- Witness for C1 amended: a store already holding twenty in-window
failures of "b" makes the pruned aggregate cross the threshold, and the
recording call for "a" does emit the spray alert. -/
theorem claim_C1_spray_amended_witness :
    (track_auth_failure [("b", List.replicate 20 (100 : ℤ))] "a" 100).spray = true :=
  (claim_C1_spray_amended [("b", List.replicate 20 (100 : ℤ))] "a" 100).2.2.2 (by decide)

/-- C9: `_track_auth_failure` only rewrites the entry of the recorded
source: any other source's stored sequence — stale timestamps included —
reads back unchanged, and every key present before the call is still
present after it. -/
theorem claim_C9_record_frame (st : TrackerState) (src : String) (now : ℤ) (src' : String) :
    (src' ≠ src →
      lookupTimes (track_auth_failure st src now).state src' = lookupTimes st src') ∧
    (∀ s : String, s ∈ st.map Prod.fst →
      s ∈ (track_auth_failure st src now).state.map Prod.fst) := by
  constructor
  · intro h
    exact lookupTimes_setTimes_ne st src src' _ h
  · intro s hs
    exact keys_setTimes st src _ s hs

/-- Witness for C9: recording "a" leaves "b"'s sequence — whose timestamp 1
is far outside the window of the call at 500 — untouched, and "b" stays in
the map. -/
theorem claim_C9_record_frame_witness :
    lookupTimes (track_auth_failure [("b", [(1 : ℤ), 400])] "a" 500).state "b" =
      lookupTimes [("b", [(1 : ℤ), 400])] "b" ∧
    "b" ∈ (track_auth_failure [("b", [(1 : ℤ), 400])] "a" 500).state.map Prod.fst :=
  ⟨(claim_C9_record_frame [("b", [(1 : ℤ), 400])] "a" 500 "b").1 (by decide),
   (claim_C9_record_frame [("b", [(1 : ℤ), 400])] "a" 500 "b").2 "b" (by decide)⟩

theorem track_fresh (st : TrackerState) (src : String) (now : ℤ)
    (h : ∀ t ∈ lookupTimes st src, now - AUTH_FAILURE_WINDOW < t) :
    lookupTimes (track_auth_failure st src now).state src = lookupTimes st src ++ [now] ∧
    (track_auth_failure st src now).bruteForce =
      decide (AUTH_FAILURE_THRESHOLD_IP ≤ (lookupTimes st src).length + 1) := by
  have hfilter :
      pruneTimes (lookupTimes st src) (now - AUTH_FAILURE_WINDOW) = lookupTimes st src := by
    unfold pruneTimes
    rw [List.filter_eq_self]
    intro a ha
    exact decide_eq_true (h a ha)
  constructor
  · show lookupTimes
        (setTimes st src
          (pruneTimes (lookupTimes st src) (now - AUTH_FAILURE_WINDOW) ++ [now])) src = _
    rw [lookupTimes_setTimes_self, hfilter]
  · show decide (AUTH_FAILURE_THRESHOLD_IP ≤
        (pruneTimes (lookupTimes st src) (now - AUTH_FAILURE_WINDOW) ++ [now]).length) = _
    rw [hfilter, List.length_append, List.length_singleton]

theorem recordSeq_spec (src : String) (ts : List ℤ) :
    ∀ (st : TrackerState) (done : List ℤ),
      lookupTimes st src = done →
      List.Pairwise (fun a b => b - AUTH_FAILURE_WINDOW < a) (done ++ ts) →
      lookupTimes (recordSeq st src ts).1 src = done ++ ts ∧
      (recordSeq st src ts).2 = (List.range ts.length).map
        (fun i => decide (AUTH_FAILURE_THRESHOLD_IP ≤ done.length + i + 1)) := by
  induction ts with
  | nil =>
    intro st done hlk _
    simp [recordSeq, hlk]
  | cons t rest ih =>
    intro st done hlk hch
    have hwin : ∀ a ∈ lookupTimes st src, t - AUTH_FAILURE_WINDOW < a := by
      rw [hlk]
      intro a ha
      exact (List.pairwise_append.mp hch).2.2 a ha t (by simp)
    have hA := track_fresh st src t hwin
    have hch' : List.Pairwise (fun a b => b - AUTH_FAILURE_WINDOW < a)
        ((done ++ [t]) ++ rest) := by
      rw [List.append_assoc, List.singleton_append]
      exact hch
    have hIH := ih (track_auth_failure st src t).state (done ++ [t])
      (by rw [hA.1, hlk]) hch'
    constructor
    · show lookupTimes (recordSeq (track_auth_failure st src t).state src rest).1 src = _
      rw [hIH.1, List.append_assoc, List.singleton_append]
    · show (track_auth_failure st src t).bruteForce ::
          (recordSeq (track_auth_failure st src t).state src rest).2 = _
      rw [hA.2, hlk, hIH.2, List.length_cons, List.range_succ_eq_map, List.map_cons,
        List.map_map]
      congr 1
      apply List.map_congr_left
      intro i _
      simp only [Function.comp_apply, List.length_append, List.length_singleton,
        Nat.succ_eq_add_one]
      have harith : done.length + 1 + i + 1 = done.length + (i + 1) + 1 := by omega
      rw [harith]

/-- C2: starting from a state where the source has no stored failures, a
chain of `T_ip - 1` in-window `_track_auth_failure` calls for that source
emits no brute-force alert, and a further in-window call emits one (each
call carries a single brute-force flag, so exactly one alert is emitted by
the crossing call); moreover, in every single call the brute-force flag
compares only the in-window count — timestamps at or beyond the window
are discarded before the threshold comparison. -/
theorem claim_C2_bruteforce (st0 : TrackerState) (src : String) (ts : List ℤ) (t10 : ℤ)
    (hfresh : lookupTimes st0 src = [])
    (hlen : ts.length = AUTH_FAILURE_THRESHOLD_IP - 1)
    (hch : inWindowChain (ts ++ [t10])) :
    (∀ b ∈ (recordSeq st0 src ts).2, b = false) ∧
    (track_auth_failure (recordSeq st0 src ts).1 src t10).bruteForce = true ∧
    (∀ (st : TrackerState) (ip : String) (now : ℤ),
      (track_auth_failure st ip now).bruteForce =
        decide (AUTH_FAILURE_THRESHOLD_IP ≤
          (pruneTimes (lookupTimes st ip) (now - AUTH_FAILURE_WINDOW)).length + 1)) := by
  have hpair : List.Pairwise (fun a b => b - AUTH_FAILURE_WINDOW < a) (ts ++ [t10]) := hch
  have hts : List.Pairwise (fun a b => b - AUTH_FAILURE_WINDOW < a) ts :=
    (List.pairwise_append.mp hpair).1
  have hspec := recordSeq_spec src ts st0 [] (by rw [hfresh]) (by simpa using hts)
  refine ⟨?_, ?_, ?_⟩
  · intro b hb
    rw [hspec.2] at hb
    obtain ⟨i, hi, rfl⟩ := List.mem_map.mp hb
    have h10 : AUTH_FAILURE_THRESHOLD_IP = 10 := rfl
    have hi9 : i < 9 := by
      have hlt := List.mem_range.mp hi
      rw [hlen, h10] at hlt
      omega
    apply decide_eq_false
    show ¬(AUTH_FAILURE_THRESHOLD_IP ≤ List.length [] + i + 1)
    rw [h10]
    simp only [List.length_nil]
    omega
  · have hwin10 : ∀ a ∈ lookupTimes (recordSeq st0 src ts).1 src,
        t10 - AUTH_FAILURE_WINDOW < a := by
      rw [hspec.1, List.nil_append]
      intro a ha
      exact (List.pairwise_append.mp hpair).2.2 a ha t10 (by simp)
    have hA := track_fresh (recordSeq st0 src ts).1 src t10 hwin10
    rw [hA.2, hspec.1, List.nil_append, hlen]
    rfl
  · intro st ip now
    show decide (AUTH_FAILURE_THRESHOLD_IP ≤
        (pruneTimes (lookupTimes st ip) (now - AUTH_FAILURE_WINDOW) ++ [now]).length) = _
    rw [List.length_append, List.length_singleton]

/-- Witness for C2 at concrete inputs: nine failures of source "a" at times
0..8 inside one window raise no brute-force alert; the tenth at time 9
does. -/
theorem claim_C2_bruteforce_witness :
    (∀ b ∈ (recordSeq [] "a" [0, 1, 2, 3, 4, 5, 6, 7, 8]).2, b = false) ∧
    (track_auth_failure (recordSeq [] "a" [0, 1, 2, 3, 4, 5, 6, 7, 8]).1 "a" 9).bruteForce
      = true :=
  ⟨(claim_C2_bruteforce [] "a" [0, 1, 2, 3, 4, 5, 6, 7, 8] 9 rfl rfl (by decide)).1,
   (claim_C2_bruteforce [] "a" [0, 1, 2, 3, 4, 5, 6, 7, 8] 9 rfl rfl (by decide)).2.1⟩

/-- C8: alerts are purely observational. The response `dispatch` returns is
the downstream status plus the correlation header, identical for any two
tracker states (so independent of whether any alert fires); the two alert
flags are pure threshold functions of the counts of the current call (the
state stores only timestamps, no alert history, so every call that crosses
a threshold re-emits); and one call can emit both alerts at once. -/
theorem claim_C8_alerts_advisory (st1 st2 : TrackerState) (req : Request)
    (rid : String) (now dur : ℤ) (status : ℕ) (src : String) :
    responseOf (dispatch st1 req rid now dur (.ok status)) =
      responseOf (dispatch st2 req rid now dur (.ok status)) ∧
    responseOf (dispatch st1 req rid now dur (.ok status)) =
      some { status_code := status, x_request_id := some rid } ∧
    (track_auth_failure st1 src now).bruteForce =
      decide (AUTH_FAILURE_THRESHOLD_IP ≤ (track_auth_failure st1 src now).failureCount) ∧
    (track_auth_failure st1 src now).spray =
      decide (AUTH_FAILURE_THRESHOLD_GLOBAL ≤ (track_auth_failure st1 src now).totalFailures) ∧
    ∃ (st : TrackerState) (ip : String) (t : ℤ),
      (track_auth_failure st ip t).bruteForce = true ∧
      (track_auth_failure st ip t).spray = true := by
  have hresp : ∀ st : TrackerState,
      responseOf (dispatch st req rid now dur (.ok status)) =
        some { status_code := status, x_request_id := some rid } := by
    intro st
    by_cases h1 : status = 401 ∨ status = 403
    · simp [dispatch, responseOf, h1]
    · by_cases h2 : 500 ≤ status
      · simp [dispatch, responseOf, h1, h2]
      · by_cases h3 : 400 ≤ status <;> simp [dispatch, responseOf, h1, h2, h3]
  exact ⟨(hresp st1).trans (hresp st2).symm, hresp st1, rfl, rfl,
    ⟨[("a", List.replicate 9 0), ("b", List.replicate 11 0)], "a", 100, by decide, by decide⟩⟩

/-- C3 counterexample: `dispatch` wraps `call_next` in no try/except, so a
request whose handler raises gets no structured log record and no
`X-Request-ID` response header — the claim that every request, including
one whose handler raises, is logged exactly once with the header attached
fails at this input (the exception itself does propagate unchanged). -/
theorem claim_C3_instrumentation_counterexample :
    dispatch [] reqPeerOnly "rid-1" 5 1 (.exn "boom") = .error "boom" ∧
    emittedLogs (dispatch [] reqPeerOnly "rid-1" 5 1 (.exn "boom")) = [] ∧
    responseOf (dispatch [] reqPeerOnly "rid-1" 5 1 (.exn "boom")) = none :=
  ⟨rfl, rfl, rfl⟩

/-- C3 amended: when the wrapped handler returns a response, `dispatch`
emits exactly one structured log record carrying the correlation id and
attaches it as the `X-Request-ID` header; when the handler raises, the
exception is re-surfaced unchanged, but nothing is logged and no header is
attached. -/
theorem claim_C3_instrumentation_amended (st : TrackerState) (req : Request)
    (rid : String) (now dur : ℤ) (status : ℕ) (e : String) :
    dispatch st req rid now dur (.exn e) = .error e ∧
    emittedLogs (dispatch st req rid now dur (.exn e)) = [] ∧
    responseOf (dispatch st req rid now dur (.exn e)) = none ∧
    (emittedLogs (dispatch st req rid now dur (.ok status))).length = 1 ∧
    (emittedLogs (dispatch st req rid now dur (.ok status))).map (fun l => l.request_id) =
      [rid] ∧
    responseOf (dispatch st req rid now dur (.ok status)) =
      some { status_code := status, x_request_id := some rid } := by
  refine ⟨rfl, rfl, rfl, ?_, ?_, ?_⟩ <;>
  · by_cases h1 : status = 401 ∨ status = 403
    · simp [dispatch, emittedLogs, responseOf, h1]
    · by_cases h2 : 500 ≤ status
      · simp [dispatch, emittedLogs, responseOf, h1, h2]
      · by_cases h3 : 400 ≤ status <;>
          simp [dispatch, emittedLogs, responseOf, h1, h2, h3]

/-- C6 counterexample: the middleware uses the forwarded-for header value
verbatim: for a comma-separated list it records the whole string, not its
first value, refuting the claimed first-value extraction. -/
theorem claim_C6_client_ip_counterexample :
    (emittedLogs (dispatch [] reqForwardedList "rid-1" 5 1 (.ok 200))).map
        (fun l => l.client_ip) =
      ["1.2.3.4, 5.6.7.8"] ∧
    forwardedForFirstValue "1.2.3.4, 5.6.7.8" = "1.2.3.4" ∧
    ("1.2.3.4, 5.6.7.8" : String) ≠ "1.2.3.4" :=
  ⟨rfl, by decide, by decide⟩

/-- C6 amended: the source address logged and fed into the failure tracker
is the whole forwarded-for header value when that header is present (even
when it carries a comma-separated list), and otherwise the transport-level
peer address (or "unknown" when there is no peer). -/
theorem claim_C6_client_ip_amended (st : TrackerState) (req : Request)
    (rid : String) (now dur : ℤ) (status : ℕ) (v : String) :
    (emittedLogs (dispatch st req rid now dur (.ok status))).map (fun l => l.client_ip) =
      [clientIpOf req] ∧
    (req.x_forwarded_for = some v → clientIpOf req = v) ∧
    (req.x_forwarded_for = none → clientIpOf req = req.client_host.getD "unknown") ∧
    ((status = 401 ∨ status = 403) →
      trackResultOf (dispatch st req rid now dur (.ok status)) =
        some (track_auth_failure st (clientIpOf req) now)) := by
  refine ⟨?_, ?_, ?_, ?_⟩
  · by_cases h1 : status = 401 ∨ status = 403
    · simp [dispatch, emittedLogs, h1]
    · by_cases h2 : 500 ≤ status
      · simp [dispatch, emittedLogs, h1, h2]
      · by_cases h3 : 400 ≤ status <;> simp [dispatch, emittedLogs, h1, h2, h3]
  · intro h
    simp [clientIpOf, h]
  · intro h
    simp [clientIpOf, h]
  · intro h
    simp [dispatch, trackResultOf, h]

/-- Witness for C6 amended at concrete inputs: a present forwarded-for
header is used whole, and a 401 feeds exactly that string to the
tracker. -/
theorem claim_C6_client_ip_amended_witness :
    clientIpOf reqForwardedPlain = "7.7.7.7" ∧
    trackResultOf (dispatch [] reqForwardedPlain "rid-1" 10 1 (.ok 401)) =
      some (track_auth_failure [] (clientIpOf reqForwardedPlain) 10) :=
  ⟨(claim_C6_client_ip_amended [] reqForwardedPlain "rid-1" 10 1 401 "7.7.7.7").2.1 rfl,
   (claim_C6_client_ip_amended [] reqForwardedPlain "rid-1" 10 1 401 "7.7.7.7").2.2.2
     (Or.inl rfl)⟩

/-- C7: the branch taken by `dispatch` classifies the completed request
exactly as claimed — the auth-failure record iff the status is 401 or 403,
the server-error record iff the status is at least 500, the client-error
record iff the status is in 400..499 excluding 401 and 403, the normal
completion record otherwise — and `_track_auth_failure` runs if and only
if the status is 401 or 403 (the tracker state is untouched on every other
status). -/
theorem claim_C7_classification (st : TrackerState) (req : Request)
    (rid : String) (now dur : ℤ) (status : ℕ) :
    ((emittedLogs (dispatch st req rid now dur (.ok status))).map (fun l => l.message) =
        ["Authentication failure"] ↔ (status = 401 ∨ status = 403)) ∧
    ((emittedLogs (dispatch st req rid now dur (.ok status))).map (fun l => l.message) =
        ["Server error"] ↔ 500 ≤ status) ∧
    ((emittedLogs (dispatch st req rid now dur (.ok status))).map (fun l => l.message) =
        ["Client error"] ↔
      (400 ≤ status ∧ status ≤ 499 ∧ status ≠ 401 ∧ status ≠ 403)) ∧
    ((emittedLogs (dispatch st req rid now dur (.ok status))).map (fun l => l.message) =
        ["Request completed"] ↔ status < 400) ∧
    ((trackResultOf (dispatch st req rid now dur (.ok status))).isSome = true ↔
      (status = 401 ∨ status = 403)) ∧
    (¬(status = 401 ∨ status = 403) →
      trackerStateOf (dispatch st req rid now dur (.ok status)) = some st) := by
  by_cases h1 : status = 401 ∨ status = 403
  · refine ⟨?_, ?_, ?_, ?_, ?_, ?_⟩ <;>
      simp [dispatch, emittedLogs, trackResultOf, trackerStateOf, h1] <;> omega
  · by_cases h2 : 500 ≤ status
    · refine ⟨?_, ?_, ?_, ?_, ?_, ?_⟩ <;>
        simp [dispatch, emittedLogs, trackResultOf, trackerStateOf, h1, h2] <;> omega
    · by_cases h3 : 400 ≤ status
      · refine ⟨?_, ?_, ?_, ?_, ?_, ?_⟩ <;>
          simp [dispatch, emittedLogs, trackResultOf, trackerStateOf, h1, h2, h3] <;> omega
      · refine ⟨?_, ?_, ?_, ?_, ?_, ?_⟩ <;>
          simp [dispatch, emittedLogs, trackResultOf, trackerStateOf, h1, h2, h3] <;> omega

/-- Witness for C7 at concrete inputs: a 200 leaves the tracker untouched
and logs a normal completion; a 401 log is the auth-failure record. -/
theorem claim_C7_classification_witness :
    trackerStateOf (dispatch [] reqBare "rid-1" 0 0 (.ok 200)) = some [] ∧
    ((emittedLogs (dispatch [] reqBare "rid-1" 0 0 (.ok 200))).map
      (fun l => l.message) = ["Request completed"]) :=
  ⟨(claim_C7_classification [] reqBare "rid-1" 0 0 200).2.2.2.2.2 (by decide),
   ((claim_C7_classification [] reqBare "rid-1" 0 0 200).2.2.2.1).mpr (by decide)⟩

/-- C4: `verify_api_key` returns the 401 missing-credential error when the
presented secret is absent or empty; with a presented nonempty secret it
returns the 403 invalid-credential error both when no stored credential
carries the secret's fingerprint and when every credential carrying it is
inactive (the same error value in both cases), and returns the credential
itself on a fingerprint match against an active credential (unique by the
store's fingerprint-uniqueness invariant). -/
theorem claim_C4_verify_api_key (hash : String → String) (db : List APIKey) :
    verify_api_key hash none db =
      .error { status_code := 401, detail := "Missing API key. Provide X-API-Key header." } ∧
    verify_api_key hash (some "") db =
      .error { status_code := 401, detail := "Missing API key. Provide X-API-Key header." } ∧
    (∀ s : String, s ≠ "" → (∀ k ∈ db, k.key_hash = hash s → k.is_active = false) →
      verify_api_key hash (some s) db =
        .error { status_code := 403, detail := "Invalid or deactivated API key." }) ∧
    (∀ (s : String) (k : APIKey), s ≠ "" → k ∈ db → k.is_active = true →
      k.key_hash = hash s → (∀ k' ∈ db, k'.key_hash = hash s → k' = k) →
      verify_api_key hash (some s) db = .ok k) := by
  refine ⟨rfl, rfl, ?_, ?_⟩
  · intro s hs hall
    have hfind : db.find? (fun k => k.key_hash == hash s && k.is_active) = none := by
      rw [List.find?_eq_none]
      intro k hk
      by_cases hh : k.key_hash = hash s
      · simp [hh, hall k hk hh]
      · simp [hh]
    simp only [verify_api_key, Option.getD_some, if_neg hs]
    rw [hfind]
  · intro s k hs hk hact hh huniq
    have hpred : (fun k' : APIKey => k'.key_hash == hash s && k'.is_active) k = true := by
      simp [hh, hact]
    have hsome : (db.find? (fun k' => k'.key_hash == hash s && k'.is_active)).isSome := by
      exact List.find?_isSome.mpr ⟨k, hk, hpred⟩
    obtain ⟨k', hk'⟩ := Option.isSome_iff_exists.mp hsome
    have hk'mem : k' ∈ db := List.mem_of_find?_eq_some hk'
    have hk'pred := List.find?_some hk'
    have hk'hash : k'.key_hash = hash s := by
      have := (Bool.and_eq_true _ _).mp hk'pred
      exact eq_of_beq this.1
    have : k' = k := huniq k' hk'mem hk'hash
    subst this
    simp only [verify_api_key, Option.getD_some, if_neg hs]
    rw [hk']

/-- Witness for C4 at concrete inputs: a toy digest, a store holding one
active credential with the presented secret's fingerprint, and the three
failing shapes of presented secret. -/
theorem claim_C4_verify_api_key_witness :
    verify_api_key (fun s => s ++ "!") (some "k") [{ key_hash := "k!", is_active := true }] =
      .ok { key_hash := "k!", is_active := true } ∧
    verify_api_key (fun s => s ++ "!") (some "z")
        [{ key_hash := "k!", is_active := false }] =
      .error { status_code := 403, detail := "Invalid or deactivated API key." } := by
  constructor
  · exact (claim_C4_verify_api_key (fun s => s ++ "!")
      [{ key_hash := "k!", is_active := true }]).2.2.2 "k"
      { key_hash := "k!", is_active := true } (by decide) (by simp) rfl (by decide)
      (by intro k' hk' hh; simpa using hk')
  · exact (claim_C4_verify_api_key (fun s => s ++ "!")
      [{ key_hash := "k!", is_active := false }]).2.2.1 "z" (by decide)
      (by intro k hk hh; simp at hk; simp [hk])

/-- C5: with an unset or empty operator-configured admin secret,
`verify_admin_secret` fails with the 503 not-configured error for every
presented value including the empty string; with a configured secret it
fails with the 401 missing-credential error when nothing is presented,
fails with the 403 invalid error on any presented nonempty mismatch
(string equality, hence case-sensitive), and succeeds exactly on equality
with the configured secret. -/
theorem claim_C5_admin_gate (secret : String) (presented : Option String) (s : String) :
    verify_admin_secret "" presented =
      .error { status_code := 503, detail := "Admin secret not configured on server." } ∧
    (secret ≠ "" → verify_admin_secret secret none =
      .error { status_code := 401, detail := "Missing admin secret. Provide X-API-Key header." }) ∧
    (secret ≠ "" → s ≠ "" → s ≠ secret → verify_admin_secret secret (some s) =
      .error { status_code := 403, detail := "Invalid admin secret." }) ∧
    (secret ≠ "" → (verify_admin_secret secret (some s) = .ok s ↔ s = secret)) := by
  refine ⟨rfl, ?_, ?_, ?_⟩
  · intro hsec
    simp [verify_admin_secret, hsec]
  · intro hsec hs hne
    simp [verify_admin_secret, hsec, hs, hne]
  · intro hsec
    constructor
    · intro h
      by_cases hs : s = ""
      · simp [verify_admin_secret, hsec, hs] at h
      · by_cases he : s = secret
        · exact he
        · simp [verify_admin_secret, hsec, hs, he] at h
    · intro he
      subst he
      simp [verify_admin_secret, hsec]

/-- Witness for C5 at concrete inputs: unset secret rejects even the empty
presentation with 503; secret "X" rejects the case-differing "x" with 403
and accepts exactly "X". -/
theorem claim_C5_admin_gate_witness :
    verify_admin_secret "" (some "") =
      .error { status_code := 503, detail := "Admin secret not configured on server." } ∧
    verify_admin_secret "X" none =
      .error { status_code := 401, detail := "Missing admin secret. Provide X-API-Key header." } ∧
    verify_admin_secret "X" (some "x") =
      .error { status_code := 403, detail := "Invalid admin secret." } ∧
    verify_admin_secret "X" (some "X") = .ok "X" := by
  refine ⟨(claim_C5_admin_gate "X" (some "") "x").1,
    (claim_C5_admin_gate "X" none "x").2.1 (by decide),
    (claim_C5_admin_gate "X" (some "x") "x").2.2.1 (by decide) (by decide) (by decide),
    ((claim_C5_admin_gate "X" (some "X") "X").2.2.2 (by decide)).mpr rfl⟩

/-- C10: with a configured admin secret, presenting the empty string to
`verify_admin_secret` fails with the 401 missing error, not the 403
invalid error: the empty presentation takes the same branch as an absent
one, before any comparison with the configured secret. -/
theorem claim_C10_empty_admin_key (secret : String) (hsec : secret ≠ "") :
    verify_admin_secret secret (some "") =
      .error { status_code := 401, detail := "Missing admin secret. Provide X-API-Key header." } ∧
    verify_admin_secret secret (some "") = verify_admin_secret secret none := by
  constructor <;> simp [verify_admin_secret, hsec]

/-- Witness for C10 at the concrete secret "X". -/
theorem claim_C10_empty_admin_key_witness :
    verify_admin_secret "X" (some "") =
      .error { status_code := 401, detail := "Missing admin secret. Provide X-API-Key header." } ∧
    verify_admin_secret "X" (some "") = verify_admin_secret "X" none :=
  claim_C10_empty_admin_key "X" (by decide)

end ChuckNorris
